import Mathlib

/-!
Verification of the cinema ticketing backend's booking core
(`cinema/serializers.py`): the Seat Validator, the Order Writer
(`OrderSerializer.create` inside `transaction.atomic()`), the order
serializer boundary (`allow_empty=False`), and the auth-token serializer
(`AuthTokenSerializer.validate`, password field with
`trim_whitespace=False`).

The persistent store is embedded as an explicit `Store` value threaded
through the operations; fallible operations return `Except VError`.
-/

namespace Cinema

/-- `CinemaHall` data model: a hall with a grid of `rows` by `seats_in_row`. -/
structure CinemaHall where
  name : String
  rows : Nat
  seats_in_row : Nat
  deriving DecidableEq, Repr

/-- Derived attribute `capacity = rows * seats_in_row`. -/
def CinemaHall.capacity (h : CinemaHall) : Nat := h.rows * h.seats_in_row

/-- `MovieSession`: one scheduled screening in a hall, identified by `id`. -/
structure MovieSession where
  id : Nat
  cinema_hall : CinemaHall
  deriving DecidableEq, Repr

/-- A persisted `Ticket` row: `(row, seat)` coordinates, the id of its
movie session and the id of the order that owns it. -/
structure Ticket where
  row : Int
  seat : Int
  movie_session : Nat
  order : Nat
  deriving DecidableEq, Repr

/-- A persisted `Order` row: its id and the id of the user who placed it. -/
structure Order where
  id : Nat
  user : Nat
  deriving DecidableEq, Repr

/-- One ticket request as submitted to the order endpoint:
`row`, `seat` and the movie session booked. -/
structure TicketReq where
  row : Int
  seat : Int
  movie_session : MovieSession
  deriving DecidableEq, Repr

/-- The persistent store: the orders and tickets persisted so far, in
insertion order, and the id the next created order will receive. -/
structure Store where
  orders : List Order
  tickets : List Ticket
  nextOrderId : Nat
  deriving DecidableEq, Repr

/-- The error taxonomy of the booking core: `rangeError` (row or seat
outside hall bounds, carrying the failing field and the valid upper
bound), `conflictError` (seat already taken for the session),
`emptyInput` (order with zero tickets) and `authError` (auth-token
serializer failures, carrying the message). -/
inductive VError where
  | rangeError (field : String) (upper : Nat)
  | conflictError
  | emptyInput
  | authError (msg : String)
  deriving DecidableEq, Repr

/-- Whether a fallible result succeeded. -/
def exceptOk {α : Type} : Except VError α → Bool
  | .ok _ => true
  | .error _ => false

/-- Whether some already-persisted ticket for the session occupies
`(row, seat)`. -/
def seatTaken (row seat : Int) (sessionId : Nat) (tickets : List Ticket) : Bool :=
  tickets.any (fun t => t.movie_session == sessionId && t.row == row && t.seat == seat)

/-- Modelled from the spec: `Ticket.validate_ticket` is defined in
`cinema/models.py`, which is not among the sources; only its caller
`TicketSerializer.validate` is. Spec, Seat Validator: checks in order,
each with a distinct field-scoped error — `1 ≤ row ≤ rows` else a
RangeError on field "row" whose message includes the upper bound;
`1 ≤ seat ≤ seats_in_row` else a RangeError on field "seat" with the
upper bound; no existing ticket for the session occupies `(row, seat)`,
else a ConflictError. A pure check against the currently persisted
tickets, not a reservation. -/
def validate_ticket (row seat : Int) (session : MovieSession)
    (tickets : List Ticket) : Except VError Unit :=
  if 1 ≤ row ∧ row ≤ (session.cinema_hall.rows : Int) then
    if 1 ≤ seat ∧ seat ≤ (session.cinema_hall.seats_in_row : Int) then
      if seatTaken row seat session.id tickets then
        .error .conflictError
      else
        .ok ()
    else
      .error (.rangeError "seat" session.cinema_hall.seats_in_row)
  else
    .error (.rangeError "row" session.cinema_hall.rows)

/-- Model of `TicketSerializer.validate` (serializers.py lines 146-151):
runs the base validation (the identity on the attrs), calls
`Ticket.validate_ticket(attrs["row"], attrs["seat"], attrs["movie_session"])`
against the persisted tickets, and returns the data unchanged. -/
def TicketSerializer.validate (tickets : List Ticket) (attrs : TicketReq) :
    Except VError TicketReq := do
  validate_ticket attrs.row attrs.seat attrs.movie_session tickets
  return attrs

/-- The ticket row persisted for a request, bound to the given order. -/
def mkTicket (orderId : Nat) (req : TicketReq) : Ticket :=
  { row := req.row, seat := req.seat,
    movie_session := req.movie_session.id, order := orderId }

/-- Modelled from the spec: `Ticket.objects.create(order=order, **ticket_data)`
persists through `Ticket.save` in `cinema/models.py`, which is not among
the sources. Spec, Order Writer: for each ticket request the writer
re-validates via the Seat Validator inside the transaction and creates
the Ticket bound to the order and session. -/
def Ticket.create (orderId : Nat) (req : TicketReq) (s : Store) :
    Except VError Store := do
  validate_ticket req.row req.seat req.movie_session s.tickets
  return { s with tickets := s.tickets ++ [mkTicket orderId req] }

/-- `Order.objects.create(**validated_data)`: persists one order bound to
the user, taking the next free id. -/
def Order.create (user : Nat) (s : Store) : Store × Order :=
  let o : Order := { id := s.nextOrderId, user := user }
  ({ s with orders := s.orders ++ [o], nextOrderId := s.nextOrderId + 1 }, o)

/-- The ticket-creation loop of `OrderSerializer.create`: for each ticket
request in input order, create the Ticket bound to the order. -/
def createTickets (orderId : Nat) (reqs : List TicketReq) (s : Store) :
    Except VError Store :=
  reqs.foldlM (fun st r => Ticket.create orderId r st) s

/-- Body of the `transaction.atomic()` block in `OrderSerializer.create`
(serializers.py lines 188-193): pop the tickets data, create the Order,
then create each Ticket bound to it, in input order. -/
def createOrderBody (user : Nat) (tickets_data : List TicketReq) (s : Store) :
    Except VError (Store × Order) := do
  let (s1, order) := Order.create user s
  let s2 ← createTickets order.id tickets_data s1
  return (s2, order)

/-- The `transaction.atomic()` scope: the body runs against the store; on
success the new store is committed, on any error the store is rolled
back unchanged. -/
def runAtomic (body : Store → Except VError (Store × Order)) (s : Store) :
    Store × Except VError Order :=
  match body s with
  | .ok (s2, o) => (s2, .ok o)
  | .error e => (s, .error e)

/-- `OrderSerializer.create` (serializers.py lines 187-193): the order and
all its tickets are created inside a single `transaction.atomic()` scope. -/
def OrderSerializer.create (user : Nat) (tickets_data : List TicketReq)
    (s : Store) : Store × Except VError Order :=
  runAtomic (createOrderBody user tickets_data) s

/-- The serializer boundary for order creation: the nested tickets field is
declared `allow_empty=False` (serializers.py line 181), so an empty
ticket list is rejected before `create` runs; otherwise every ticket
request is validated by `TicketSerializer.validate` against the current
store, in input order. -/
def OrderSerializer.run_validation (s : Store) (reqs : List TicketReq) :
    Except VError (List TicketReq) :=
  if reqs.isEmpty then .error .emptyInput
  else reqs.mapM (TicketSerializer.validate s.tickets)

/-- The order-creation endpoint: validate at the boundary, then run the
Order Writer on the validated data. On a validation failure the writer
is never invoked and the store is untouched. -/
def create_order (user : Nat) (reqs : List TicketReq) (s : Store) :
    Store × Except VError Order :=
  match OrderSerializer.run_validation s reqs with
  | .error e => (s, .error e)
  | .ok vd => OrderSerializer.create user vd s

/-- Reading an order back: the tickets bound to the order. Modelled from
the spec for the related-manager ordering (`cinema/models.py` is not
among the sources): readable back with tickets in insertion order. -/
def orderTickets (s : Store) (orderId : Nat) : List Ticket :=
  s.tickets.filter (fun t => t.order == orderId)

/-- A registered user of the auth provider: credentials and id. -/
structure AuthUser where
  email : String
  password : String
  id : Nat
  deriving DecidableEq, Repr

/-- Modelled from the spec: the Django `authenticate` backend (spec,
Auth provider collaborator) — returns the user matching the supplied
credentials, if any. -/
def authenticate (users : List AuthUser) (email password : String) :
    Option AuthUser :=
  users.find? (fun u => u.email == email && u.password == password)

/-- The attrs reaching `AuthTokenSerializer.validate`: each credential may
be absent. -/
structure AuthAttrs where
  email : Option String
  password : Option String
  deriving DecidableEq, Repr

/-- Python truthiness of an optional string: present and non-empty. -/
def truthy : Option String → Bool
  | none => false
  | some s => !(s == "")

/-- The validated data produced on auth success: the attrs plus the
authenticated user (`attrs["user"] = user`). -/
structure AuthValidated where
  email : Option String
  password : Option String
  user : AuthUser
  deriving DecidableEq, Repr

/-- `AuthTokenSerializer.validate` (serializers.py lines 210-229): if both
email and password are supplied (`if email and password:`, Python
truthiness), call `authenticate`; if no user matches, raise a
ValidationError "Unable to log in with provided credentials."; if either
credential is missing, raise "Must include 'email' and 'password'.";
otherwise add the authenticated user to the attrs and return them. -/
def AuthTokenSerializer.validate (users : List AuthUser) (attrs : AuthAttrs) :
    Except VError AuthValidated :=
  if truthy attrs.email && truthy attrs.password then
    match authenticate users (attrs.email.getD "") (attrs.password.getD "") with
    | some user =>
      .ok { email := attrs.email, password := attrs.password, user := user }
    | none => .error (.authError "Unable to log in with provided credentials.")
  else
    .error (.authError "Must include 'email' and 'password'.")

/-- Modelled from the spec: the token-exchange HTTP view is not among the
sources (only `user/urls.py` routes to it). Spec, HTTP boundary: 200 on
success, 400 with a field-scoped error list on validation failure, 401
on authentication failure; the two failure modes are told apart by the
error the serializer raised. -/
def tokenEndpoint (users : List AuthUser) (attrs : AuthAttrs) : Nat :=
  match AuthTokenSerializer.validate users attrs with
  | .ok _ => 200
  | .error (.authError m) =>
    if m == "Unable to log in with provided credentials." then 401 else 400
  | .error _ => 400

/-- DRF `CharField` whitespace handling: surrounding whitespace is trimmed
exactly when `trim_whitespace` is set. -/
def charFieldClean (tw : Bool) (s : String) : String :=
  if tw then s.trim else s

/-- The password field of `AuthTokenSerializer` (serializers.py lines
202-207) is declared with `trim_whitespace=False`. -/
def passwordFieldClean (s : String) : String := charFieldClean false s

/-- Test fixture: a 2-by-2 hall. -/
def hall0 : CinemaHall := { name := "A", rows := 2, seats_in_row := 2 }

/-- Test fixture: a session in the 2-by-2 hall. -/
def session0 : MovieSession := { id := 0, cinema_hall := hall0 }

/-- Test fixture: a valid ticket request for seat (1, 1). -/
def rq1 : TicketReq := { row := 1, seat := 1, movie_session := session0 }

/-- Test fixture: an out-of-range ticket request (row 3 in a 2-row hall). -/
def rqBad : TicketReq := { row := 3, seat := 1, movie_session := session0 }

/-- Test fixture: the empty store. -/
def store0 : Store := { orders := [], tickets := [], nextOrderId := 0 }

/-- Test fixture: a store whose session 0 already has seat (1, 1) taken. -/
def ticketsTaken : List Ticket :=
  [{ row := 1, seat := 1, movie_session := 0, order := 0 }]

/-- Test fixture: one registered user. -/
def users0 : List AuthUser := [{ email := "a@b.c", password := "p", id := 1 }]

end Cinema

namespace Cinema

/-! Helper lemmas about the embedded operations. -/

theorem Ticket.create_ok_iff (oid : Nat) (req : TicketReq) (s s2 : Store) :
    Ticket.create oid req s = .ok s2 ↔
    (validate_ticket req.row req.seat req.movie_session s.tickets = .ok () ∧
     s2 = { s with tickets := s.tickets ++ [mkTicket oid req] }) := by
  unfold Ticket.create
  cases hv : validate_ticket req.row req.seat req.movie_session s.tickets with
  | ok u => cases u; simp [hv, Bind.bind, Except.bind, pure, Except.pure, eq_comm]
  | error e => simp [hv, Bind.bind, Except.bind]

theorem Ticket.create_error (oid : Nat) (req : TicketReq) (s : Store) (e : VError)
    (h : validate_ticket req.row req.seat req.movie_session s.tickets = .error e) :
    Ticket.create oid req s = .error e := by
  unfold Ticket.create
  simp [h, Bind.bind, Except.bind]

theorem seatTaken_append (row seat : Int) (sid : Nat) (T U : List Ticket)
    (h : seatTaken row seat sid T = true) :
    seatTaken row seat sid (T ++ U) = true := by
  simp only [seatTaken, List.any_append, Bool.or_eq_true]
  exact Or.inl h

theorem seatTaken_iff (row seat : Int) (sid : Nat) (tickets : List Ticket) :
    seatTaken row seat sid tickets = true ↔
    ∃ t ∈ tickets, t.movie_session = sid ∧ t.row = row ∧ t.seat = seat := by
  simp [seatTaken, List.any_eq_true, Bool.and_eq_true, beq_iff_eq, and_assoc]

theorem validate_ticket_fail_mono (row seat : Int) (session : MovieSession)
    (T U : List Ticket)
    (h : exceptOk (validate_ticket row seat session T) = false) :
    exceptOk (validate_ticket row seat session (T ++ U)) = false := by
  unfold validate_ticket at h ⊢
  by_cases h1 : 1 ≤ row ∧ row ≤ (session.cinema_hall.rows : Int)
  · rw [if_pos h1] at h ⊢
    by_cases h2 : 1 ≤ seat ∧ seat ≤ (session.cinema_hall.seats_in_row : Int)
    · rw [if_pos h2] at h ⊢
      by_cases h3 : seatTaken row seat session.id T = true
      · rw [if_pos (seatTaken_append row seat session.id T U h3)]
        rfl
      · rw [if_neg (by simpa using h3)] at h
        exact absurd h (by simp [exceptOk])
    · rw [if_neg h2]; rfl
  · rw [if_neg h1]; rfl

theorem createTickets_nil (oid : Nat) (s : Store) :
    createTickets oid [] s = .ok s := rfl

theorem createTickets_cons (oid : Nat) (r : TicketReq) (rest : List TicketReq)
    (s : Store) :
    createTickets oid (r :: rest) s =
      (Ticket.create oid r s).bind (createTickets oid rest) := by
  unfold createTickets
  rw [List.foldlM_cons]
  cases Ticket.create oid r s with
  | ok st => simp [Bind.bind, Except.bind]
  | error e => simp [Bind.bind, Except.bind]

theorem createTickets_ok_spec (oid : Nat) :
    ∀ (reqs : List TicketReq) (s s2 : Store),
    createTickets oid reqs s = .ok s2 →
    s2.tickets = s.tickets ++ reqs.map (mkTicket oid) ∧
    s2.orders = s.orders ∧ s2.nextOrderId = s.nextOrderId ∧
    ∀ i (hi : i < reqs.length),
      validate_ticket (reqs.get ⟨i, hi⟩).row (reqs.get ⟨i, hi⟩).seat
        (reqs.get ⟨i, hi⟩).movie_session
        (s.tickets ++ ((reqs.take i).map (mkTicket oid))) = .ok () := by
  intro reqs
  induction reqs with
  | nil =>
    intro s s2 h
    rw [createTickets_nil] at h
    cases h
    simp
  | cons r rest ih =>
    intro s s2 h
    rw [createTickets_cons] at h
    cases hc : Ticket.create oid r s with
    | error e => rw [hc] at h; cases h
    | ok st =>
      rw [hc] at h
      simp only [Except.bind] at h
      obtain ⟨hval, hst⟩ := (Ticket.create_ok_iff oid r s st).mp hc
      obtain ⟨ht, ho, hn, hvs⟩ := ih st s2 h
      subst hst
      refine ⟨by simpa using ht, by simpa using ho, by simpa using hn, ?_⟩
      intro i hi
      cases i with
      | zero => simpa using hval
      | succ j =>
        have hj : j < rest.length := by simpa using hi
        have := hvs j hj
        simpa [List.append_assoc] using this

theorem createTickets_fail (oid : Nat) :
    ∀ (reqs : List TicketReq) (s : Store),
    (∃ r ∈ reqs,
      exceptOk (validate_ticket r.row r.seat r.movie_session s.tickets) = false) →
    ∃ e, createTickets oid reqs s = .error e := by
  intro reqs
  induction reqs with
  | nil => intro s h; simp at h
  | cons r rest ih =>
    intro s h
    rw [createTickets_cons]
    cases hc : Ticket.create oid r s with
    | error e => exact ⟨e, rfl⟩
    | ok st =>
      obtain ⟨hval, hst⟩ := (Ticket.create_ok_iff oid r s st).mp hc
      obtain ⟨r0, hr0, hfail⟩ := h
      rcases List.mem_cons.mp hr0 with rfl | hmem
      · rw [hval] at hfail; simp [exceptOk] at hfail
      · have hfail2 : exceptOk
            (validate_ticket r0.row r0.seat r0.movie_session st.tickets) = false := by
          rw [hst]
          exact validate_ticket_fail_mono _ _ _ _ _ hfail
        obtain ⟨e, he⟩ := ih st ⟨r0, hmem, hfail2⟩
        exact ⟨e, by simp [Except.bind, he]⟩

theorem TicketSerializer.validate_ok (T : List Ticket) (a b : TicketReq)
    (h : TicketSerializer.validate T a = .ok b) :
    b = a ∧ validate_ticket a.row a.seat a.movie_session T = .ok () := by
  unfold TicketSerializer.validate at h
  cases hv : validate_ticket a.row a.seat a.movie_session T with
  | ok u =>
    cases u
    rw [hv] at h
    simp [Bind.bind, Except.bind, pure, Except.pure] at h
    exact ⟨h.symm, rfl⟩
  | error e =>
    rw [hv] at h
    simp [Bind.bind, Except.bind] at h

theorem mapM_validate_ok (T : List Ticket) :
    ∀ (reqs vd : List TicketReq),
    reqs.mapM (TicketSerializer.validate T) = .ok vd → vd = reqs := by
  intro reqs
  induction reqs with
  | nil =>
    intro vd h
    rw [List.mapM_nil] at h
    simp [pure, Except.pure] at h
    exact h
  | cons r rest ih =>
    intro vd h
    rw [List.mapM_cons] at h
    cases hv : TicketSerializer.validate T r with
    | error e => rw [hv] at h; simp [Bind.bind, Except.bind] at h
    | ok b =>
      rw [hv] at h
      simp only [Bind.bind, Except.bind] at h
      cases hrest : rest.mapM (TicketSerializer.validate T) with
      | error e => rw [hrest] at h; simp at h
      | ok vs =>
        rw [hrest] at h
        simp [pure, Except.pure] at h
        obtain ⟨hb, _⟩ := TicketSerializer.validate_ok T r b hv
        rw [← h, hb, ih vs hrest]

theorem run_validation_ok (s : Store) (reqs vd : List TicketReq)
    (h : OrderSerializer.run_validation s reqs = .ok vd) :
    vd = reqs ∧ reqs ≠ [] := by
  unfold OrderSerializer.run_validation at h
  by_cases he : reqs.isEmpty
  · simp [he] at h
  · rw [if_neg he] at h
    exact ⟨mapM_validate_ok s.tickets reqs vd h, by simpa [List.isEmpty_iff] using he⟩

theorem except_bind_pair_ok (m : Except VError Store) (o1 : Order)
    (s2 : Store) (o : Order)
    (h : (do
        let x ← m
        pure ((x, o1) : Store × Order)) = Except.ok (s2, o)) :
    m = .ok s2 ∧ o = o1 := by
  cases m with
  | ok st =>
    simp [Bind.bind, Except.bind, pure, Except.pure] at h
    exact ⟨by rw [h.1], h.2.symm⟩
  | error e => simp [Bind.bind, Except.bind] at h

theorem createOrderBody_ok (user : Nat) (reqs : List TicketReq) (s s2 : Store)
    (o : Order) (h : createOrderBody user reqs s = .ok (s2, o)) :
    o = { id := s.nextOrderId, user := user } ∧
    s2.orders = s.orders ++ [o] ∧
    s2.nextOrderId = s.nextOrderId + 1 ∧
    s2.tickets = s.tickets ++ reqs.map (mkTicket o.id) ∧
    ∀ i (hi : i < reqs.length),
      validate_ticket (reqs.get ⟨i, hi⟩).row (reqs.get ⟨i, hi⟩).seat
        (reqs.get ⟨i, hi⟩).movie_session
        (s.tickets ++ ((reqs.take i).map (mkTicket o.id))) = .ok () := by
  unfold createOrderBody Order.create at h
  obtain ⟨hct, ho⟩ := except_bind_pair_ok _ _ _ _ h
  obtain ⟨ht, horders, hnext, hval⟩ := createTickets_ok_spec s.nextOrderId reqs _ s2 hct
  subst ho
  refine ⟨rfl, by simpa using horders, by simpa using hnext, by simpa using ht, ?_⟩
  intro i hi
  simpa using hval i hi

theorem createOrderBody_fail (user : Nat) (reqs : List TicketReq) (s : Store)
    (h : ∃ r ∈ reqs,
      exceptOk (validate_ticket r.row r.seat r.movie_session s.tickets) = false) :
    ∃ e, createOrderBody user reqs s = .error e := by
  obtain ⟨e, he⟩ := createTickets_fail (Order.create user s).2.id reqs
    (Order.create user s).1 h
  refine ⟨e, ?_⟩
  unfold createOrderBody
  rcases hoc : Order.create user s with ⟨s1, o1⟩
  rw [hoc] at he
  dsimp only
  simp [Bind.bind, Except.bind, he]

end Cinema

namespace Cinema

/-- C1: if, inside one order, persisting any ticket fails validation, then
`OrderSerializer.create` leaves the store exactly as it was — zero new
orders and zero new tickets, never the tickets that preceded the failure:
the `transaction.atomic()` scope rolls everything back. -/
theorem order_create_atomic (user : Nat) (reqs : List TicketReq) (s : Store)
    (h : ∃ r ∈ reqs,
      exceptOk (validate_ticket r.row r.seat r.movie_session s.tickets) = false) :
    ∃ e, OrderSerializer.create user reqs s = (s, .error e) := by
  obtain ⟨e, he⟩ := createOrderBody_fail user reqs s h
  refine ⟨e, ?_⟩
  unfold OrderSerializer.create runAtomic
  rw [he]

/-- Witness for C1: a two-ticket batch whose second ticket is out of range
is rolled back whole on the empty store. -/
theorem order_create_atomic_witness :
    ∃ e, OrderSerializer.create 7 [rq1, rqBad] store0 = (store0, .error e) :=
  order_create_atomic 7 [rq1, rqBad] store0 (by decide)

/-- C2: inside the order-creation transaction, each ticket request is
re-validated by the Seat Validator, against the tickets persisted at that
point, before its Ticket is created: a successful `createOrderBody` run
implies `validate_ticket` succeeded for every request, in input order,
within the same atomic scope as the writes. -/
theorem order_writer_revalidates (user : Nat) (reqs : List TicketReq)
    (s s2 : Store) (o : Order)
    (h : createOrderBody user reqs s = .ok (s2, o)) :
    ∀ i (hi : i < reqs.length),
      validate_ticket (reqs.get ⟨i, hi⟩).row (reqs.get ⟨i, hi⟩).seat
        (reqs.get ⟨i, hi⟩).movie_session
        (s.tickets ++ ((reqs.take i).map (mkTicket o.id))) = .ok () :=
  fun i hi => (createOrderBody_ok user reqs s s2 o h).2.2.2.2 i hi

/-- Witness for C2: in a successful one-ticket order on the empty store,
the single request was validated inside the transaction. -/
theorem order_writer_revalidates_witness :
    validate_ticket rq1.row rq1.seat rq1.movie_session
      (store0.tickets ++ (([rq1].take 0).map (mkTicket 0))) = .ok () :=
  order_writer_revalidates 7 [rq1] store0
    { orders := [{ id := 0, user := 7 }],
      tickets := [{ row := 1, seat := 1, movie_session := 0, order := 0 }],
      nextOrderId := 1 }
    { id := 0, user := 7 } (by rfl) 0 (by decide)

/-- C3: for a session in a hall with dimensions (R, S), `validate_ticket`
succeeds iff `1 ≤ row ≤ R`, `1 ≤ seat ≤ S`, and no already-persisted
ticket for that session occupies `(row, seat)`. -/
theorem validate_ticket_iff (row seat : Int) (session : MovieSession)
    (tickets : List Ticket) :
    validate_ticket row seat session tickets = .ok () ↔
    (1 ≤ row ∧ row ≤ (session.cinema_hall.rows : Int) ∧
     1 ≤ seat ∧ seat ≤ (session.cinema_hall.seats_in_row : Int) ∧
     ¬ ∃ t ∈ tickets,
        t.movie_session = session.id ∧ t.row = row ∧ t.seat = seat) := by
  unfold validate_ticket
  by_cases h1 : 1 ≤ row ∧ row ≤ (session.cinema_hall.rows : Int)
  · rw [if_pos h1]
    by_cases h2 : 1 ≤ seat ∧ seat ≤ (session.cinema_hall.seats_in_row : Int)
    · rw [if_pos h2]
      by_cases h3 : seatTaken row seat session.id tickets = true
      · rw [if_pos h3]
        simp only [seatTaken_iff] at h3
        constructor
        · intro hc; cases hc
        · intro hc; exact absurd h3 hc.2.2.2.2
      · rw [if_neg (by simpa using h3)]
        simp only [seatTaken_iff] at h3
        constructor
        · intro _; exact ⟨h1.1, h1.2, h2.1, h2.2, by simpa using h3⟩
        · intro _; rfl
    · rw [if_neg h2]
      constructor
      · intro hc; cases hc
      · intro hc; exact absurd ⟨hc.2.2.1, hc.2.2.2.1⟩ h2
  · rw [if_neg h1]
    constructor
    · intro hc; cases hc
    · intro hc; exact absurd ⟨hc.1, hc.2.1⟩ h1

/-- C4: when `validate_ticket` fails, it fails with the first violated
check, in the fixed order row-bound, seat-bound, seat-taken, and each
failure carries its distinct field-scoped error: a RangeError on "row"
carrying the bound R, a RangeError on "seat" carrying the bound S, or a
ConflictError for a taken seat. -/
theorem validate_ticket_error_first (row seat : Int) (session : MovieSession)
    (tickets : List Ticket) (e : VError)
    (h : validate_ticket row seat session tickets = .error e) :
    (¬ (1 ≤ row ∧ row ≤ (session.cinema_hall.rows : Int)) ∧
      e = .rangeError "row" session.cinema_hall.rows) ∨
    ((1 ≤ row ∧ row ≤ (session.cinema_hall.rows : Int)) ∧
      ¬ (1 ≤ seat ∧ seat ≤ (session.cinema_hall.seats_in_row : Int)) ∧
      e = .rangeError "seat" session.cinema_hall.seats_in_row) ∨
    ((1 ≤ row ∧ row ≤ (session.cinema_hall.rows : Int)) ∧
      (1 ≤ seat ∧ seat ≤ (session.cinema_hall.seats_in_row : Int)) ∧
      seatTaken row seat session.id tickets = true ∧ e = .conflictError) := by
  unfold validate_ticket at h
  by_cases h1 : 1 ≤ row ∧ row ≤ (session.cinema_hall.rows : Int)
  · rw [if_pos h1] at h
    by_cases h2 : 1 ≤ seat ∧ seat ≤ (session.cinema_hall.seats_in_row : Int)
    · rw [if_pos h2] at h
      by_cases h3 : seatTaken row seat session.id tickets = true
      · rw [if_pos h3] at h
        exact Or.inr (Or.inr ⟨h1, h2, h3, (Except.error.inj h).symm⟩)
      · rw [if_neg (by simpa using h3)] at h
        cases h
    · rw [if_neg h2] at h
      exact Or.inr (Or.inl ⟨h1, h2, (Except.error.inj h).symm⟩)
  · rw [if_neg h1] at h
    exact Or.inl ⟨h1, (Except.error.inj h).symm⟩

/-- Witness for C4: in the 2-by-2 hall, row 3 fails with the row-bound
RangeError carrying the bound 2. -/
theorem validate_ticket_error_first_witness :
    (¬ ((1 : Int) ≤ 3 ∧ (3 : Int) ≤ (session0.cinema_hall.rows : Int)) ∧
      (VError.rangeError "row" session0.cinema_hall.rows : VError)
        = .rangeError "row" session0.cinema_hall.rows) ∨
    (((1 : Int) ≤ 3 ∧ (3 : Int) ≤ (session0.cinema_hall.rows : Int)) ∧
      ¬ ((1 : Int) ≤ 1 ∧ (1 : Int) ≤ (session0.cinema_hall.seats_in_row : Int)) ∧
      (VError.rangeError "row" session0.cinema_hall.rows : VError)
        = .rangeError "seat" session0.cinema_hall.seats_in_row) ∨
    (((1 : Int) ≤ 3 ∧ (3 : Int) ≤ (session0.cinema_hall.rows : Int)) ∧
      ((1 : Int) ≤ 1 ∧ (1 : Int) ≤ (session0.cinema_hall.seats_in_row : Int)) ∧
      seatTaken 3 1 session0.id [] = true ∧
      (VError.rangeError "row" session0.cinema_hall.rows : VError) = .conflictError) :=
  validate_ticket_error_first 3 1 session0 []
    (.rangeError "row" session0.cinema_hall.rows) (by rfl)

end Cinema

namespace Cinema

/-- C5: an order-creation request with an empty ticket list is rejected at
the serializer boundary with the empty-input error, before the Order
Writer runs: the store comes back unchanged. -/
theorem empty_order_rejected (user : Nat) (s : Store) :
    create_order user [] s = (s, .error .emptyInput) := rfl

/-- C6: `validate_ticket` is a pure check and its failure is idempotent:
running `TicketSerializer.validate` twice in sequence equals running it
once, and with the same already-taken in-bounds seat it yields the
ConflictError — deterministically, with no state threaded through. -/
theorem ticket_validation_pure_idempotent (attrs : TicketReq) (T : List Ticket) :
    ((TicketSerializer.validate T attrs) >>= fun _ =>
        TicketSerializer.validate T attrs) = TicketSerializer.validate T attrs ∧
    (seatTaken attrs.row attrs.seat attrs.movie_session.id T = true →
      (1 ≤ attrs.row ∧ attrs.row ≤ (attrs.movie_session.cinema_hall.rows : Int)) →
      (1 ≤ attrs.seat ∧
        attrs.seat ≤ (attrs.movie_session.cinema_hall.seats_in_row : Int)) →
      TicketSerializer.validate T attrs = .error .conflictError) := by
  constructor
  · cases hv : TicketSerializer.validate T attrs with
    | ok b =>
      obtain ⟨hb, _⟩ := TicketSerializer.validate_ok T attrs b hv
      subst hb
      simp [Bind.bind, Except.bind, hv]
    | error e => simp [Bind.bind, Except.bind, hv]
  · intro htaken hrow hseat
    unfold TicketSerializer.validate validate_ticket
    rw [if_pos hrow, if_pos hseat, if_pos htaken]
    rfl

/-- Witness for C6: seat (1, 1) of session 0 is taken in the fixture store;
validating it fails with the ConflictError. -/
theorem ticket_validation_pure_idempotent_witness :
    TicketSerializer.validate ticketsTaken rq1 = .error .conflictError :=
  (ticket_validation_pure_idempotent rq1 ticketsTaken).2
    (by decide) (by decide) (by decide)

/-- C7: round-trip — when `create_order` succeeds for a user and a ticket
request sequence (and the about-to-be-assigned order id is fresh in the
store), reading the order back yields exactly the requested
`(row, seat, session)` triples, in input order. -/
theorem order_roundtrip (user : Nat) (reqs : List TicketReq) (s s2 : Store)
    (o : Order)
    (hfresh : ∀ t ∈ s.tickets, t.order ≠ s.nextOrderId)
    (h : create_order user reqs s = (s2, .ok o)) :
    (orderTickets s2 o.id).map (fun t => (t.row, t.seat, t.movie_session))
      = reqs.map (fun r => (r.row, r.seat, r.movie_session.id)) := by
  unfold create_order at h
  cases hrv : OrderSerializer.run_validation s reqs with
  | error e => rw [hrv] at h; simp at h
  | ok vd =>
    rw [hrv] at h
    obtain ⟨hvd, hne⟩ := run_validation_ok s reqs vd hrv
    rw [hvd] at h
    unfold OrderSerializer.create runAtomic at h
    dsimp only at h
    cases hb : createOrderBody user reqs s with
    | error e => rw [hb] at h; simp at h
    | ok p =>
      obtain ⟨sb, ob⟩ := p
      rw [hb] at h
      simp only [Prod.mk.injEq, Except.ok.injEq] at h
      obtain ⟨hs, ho⟩ := h
      subst hs; subst ho
      obtain ⟨hid, _, _, ht, _⟩ := createOrderBody_ok user reqs s sb ob hb
      unfold orderTickets
      rw [ht, List.filter_append]
      have hold : s.tickets.filter (fun t => t.order == ob.id) = [] := by
        rw [List.filter_eq_nil_iff]
        intro t htmem
        simp only [beq_iff_eq]
        rw [hid]
        exact hfresh t htmem
      have hnew : (reqs.map (mkTicket ob.id)).filter (fun t => t.order == ob.id)
          = reqs.map (mkTicket ob.id) := by
        rw [List.filter_eq_self]
        intro t htmem
        obtain ⟨r, _, hr⟩ := List.mem_map.mp htmem
        subst hr
        simp [mkTicket]
      rw [hold, hnew, List.nil_append, List.map_map]
      rfl

/-- Witness for C7: a one-ticket order on the empty store reads back as
exactly the requested triple. -/
theorem order_roundtrip_witness :
    (orderTickets
        { orders := [{ id := 0, user := 7 }],
          tickets := [{ row := 1, seat := 1, movie_session := 0, order := 0 }],
          nextOrderId := 1 }
        (Order.id { id := 0, user := 7 })).map
      (fun t => (t.row, t.seat, t.movie_session))
      = [rq1].map (fun r => (r.row, r.seat, r.movie_session.id)) :=
  order_roundtrip 7 [rq1] store0
    { orders := [{ id := 0, user := 7 }],
      tickets := [{ row := 1, seat := 1, movie_session := 0, order := 0 }],
      nextOrderId := 1 }
    { id := 0, user := 7 } (by decide) (by rfl)

end Cinema

namespace Cinema

/-- C8: `AuthTokenSerializer.validate` raises exactly when a credential is
missing (Python-falsy) or `authenticate` finds no user, and otherwise
adds the authenticated user to the validated data; the token endpoint
maps the missing-credential validation failure to 400, failed
authentication to 401, and authenticated credentials to 200. -/
theorem auth_token_validate_spec (users : List AuthUser) (attrs : AuthAttrs) :
    ((truthy attrs.email && truthy attrs.password) = false →
      AuthTokenSerializer.validate users attrs
        = .error (.authError "Must include 'email' and 'password'.") ∧
      tokenEndpoint users attrs = 400) ∧
    ((truthy attrs.email && truthy attrs.password) = true →
      (authenticate users (attrs.email.getD "") (attrs.password.getD "") = none →
        AuthTokenSerializer.validate users attrs
          = .error (.authError "Unable to log in with provided credentials.") ∧
        tokenEndpoint users attrs = 401) ∧
      (∀ u, authenticate users (attrs.email.getD "") (attrs.password.getD "")
          = some u →
        AuthTokenSerializer.validate users attrs
          = .ok { email := attrs.email, password := attrs.password, user := u } ∧
        tokenEndpoint users attrs = 200)) := by
  refine ⟨?_, ?_⟩
  · intro hf
    have hval : AuthTokenSerializer.validate users attrs
        = .error (.authError "Must include 'email' and 'password'.") := by
      unfold AuthTokenSerializer.validate
      rw [if_neg (by simp [hf])]
    refine ⟨hval, ?_⟩
    unfold tokenEndpoint
    rw [hval]
    rfl
  · intro ht
    refine ⟨?_, ?_⟩
    · intro hnone
      have hval : AuthTokenSerializer.validate users attrs
          = .error (.authError "Unable to log in with provided credentials.") := by
        unfold AuthTokenSerializer.validate
        rw [if_pos ht, hnone]
      refine ⟨hval, ?_⟩
      unfold tokenEndpoint
      rw [hval]
      rfl
    · intro u hu
      have hval : AuthTokenSerializer.validate users attrs
          = .ok { email := attrs.email, password := attrs.password, user := u } := by
        unfold AuthTokenSerializer.validate
        rw [if_pos ht, hu]
      refine ⟨hval, ?_⟩
      unfold tokenEndpoint
      rw [hval]

/-- Witness for C8: with the fixture user registered, wrong credentials
fail validation and yield a 401 from the token endpoint. -/
theorem auth_token_validate_spec_witness :
    AuthTokenSerializer.validate users0
        { email := some "a@b.c", password := some "wrong" }
      = .error (.authError "Unable to log in with provided credentials.") ∧
    tokenEndpoint users0 { email := some "a@b.c", password := some "wrong" }
      = 401 :=
  ((auth_token_validate_spec users0
      { email := some "a@b.c", password := some "wrong" }).2
    (by decide)).1 (by decide)

/-- C9: every Ticket created during order creation is bound to the Order
created in that same call: on success the new store is the old one plus
exactly the requested tickets, each carrying the fresh order's id, and
the fresh order itself; no ticket is created without an order. -/
theorem tickets_bound_to_order (user : Nat) (reqs : List TicketReq)
    (s s2 : Store) (o : Order)
    (h : create_order user reqs s = (s2, .ok o)) :
    s2.tickets = s.tickets ++ reqs.map (mkTicket o.id) ∧
    (∀ t ∈ reqs.map (mkTicket o.id), t.order = o.id) ∧
    s2.orders = s.orders ++ [o] := by
  unfold create_order at h
  cases hrv : OrderSerializer.run_validation s reqs with
  | error e => rw [hrv] at h; simp at h
  | ok vd =>
    rw [hrv] at h
    obtain ⟨hvd, hne⟩ := run_validation_ok s reqs vd hrv
    rw [hvd] at h
    unfold OrderSerializer.create runAtomic at h
    dsimp only at h
    cases hb : createOrderBody user reqs s with
    | error e => rw [hb] at h; simp at h
    | ok p =>
      obtain ⟨sb, ob⟩ := p
      rw [hb] at h
      simp only [Prod.mk.injEq, Except.ok.injEq] at h
      obtain ⟨hs, ho⟩ := h
      subst hs
      subst ho
      obtain ⟨_, horders, _, ht, _⟩ := createOrderBody_ok user reqs s sb ob hb
      refine ⟨ht, ?_, horders⟩
      intro t htm
      obtain ⟨r, _, hr⟩ := List.mem_map.mp htm
      subst hr
      rfl

/-- Witness for C9: in a successful one-ticket order on the empty store,
the persisted ticket carries the fresh order's id. -/
theorem tickets_bound_to_order_witness :
    Store.tickets
        { orders := [{ id := 0, user := 7 }],
          tickets := [{ row := 1, seat := 1, movie_session := 0, order := 0 }],
          nextOrderId := 1 }
      = store0.tickets
          ++ [rq1].map (mkTicket (Order.id { id := 0, user := 7 })) ∧
    (∀ t ∈ [rq1].map (mkTicket (Order.id { id := 0, user := 7 })),
      t.order = Order.id { id := 0, user := 7 }) ∧
    Store.orders
        { orders := [{ id := 0, user := 7 }],
          tickets := [{ row := 1, seat := 1, movie_session := 0, order := 0 }],
          nextOrderId := 1 }
      = store0.orders ++ [{ id := 0, user := 7 }] :=
  tickets_bound_to_order 7 [rq1] store0
    { orders := [{ id := 0, user := 7 }],
      tickets := [{ row := 1, seat := 1, movie_session := 0, order := 0 }],
      nextOrderId := 1 }
    { id := 0, user := 7 } (by rfl)

/-- C10: the password supplied to the token endpoint is passed to
authentication verbatim — the field disables whitespace trimming — so
surrounding whitespace is never stripped and two passwords differing
only in surrounding whitespace are distinct credentials. -/
theorem password_passed_verbatim :
    (∀ s : String, passwordFieldClean s = s) ∧
    passwordFieldClean " p" ≠ passwordFieldClean "p" ∧
    authenticate users0 "a@b.c" (passwordFieldClean " p") = none ∧
    authenticate users0 "a@b.c" (passwordFieldClean "p")
      = some { email := "a@b.c", password := "p", id := 1 } := by
  refine ⟨fun s => rfl, by decide, by decide, by decide⟩

end Cinema
